import Mathlib

/-!
Shallow embedding of the AWS-fargate-golden-path repository.

Part 1 embeds `src/app/app.py`, the FastAPI sample application: the
`FailureMode` helper that reads an SSM parameter, the `DatabaseManager`
stub, and the request handlers for `/`, `/healthz`, `/work`, `/db`,
`/metrics`, `GET /admin/failure-mode` and `POST /admin/failure-mode/{mode}`.

External effects are made explicit:
  * the SSM Parameter Store is a function from parameter names to
    `Except String String` (`Except.error` models a raised exception of
    the AWS client, `Except.ok` a successful `get_parameter` call);
  * Secrets Manager is a function from secret ARNs to
    `Except String DbCredentials` (the JSON secret already parsed);
  * wall-clock timestamps (`datetime.utcnow().isoformat()`) are a `String`
    parameter `now`;
  * the module-level global `db_connection` is threaded through the
    database functions as an `Option Connection` in / out value;
  * a raised `HTTPException(status_code, detail)` is `Except.error` of an
    `HTTPError`; a returned JSON body is `Except.ok` of a structure whose
    fields mirror the returned dict.

Part 2 embeds `src/infra/app.py` (the CDK application: which stacks are
instantiated and the dependencies between them) and
`src/infra/stacks/fis_stack.py` (the FIS experiment templates).
-/

namespace GoldenPath

/-- The SSM Parameter Store as seen by `ssm_client.get_parameter`:
`Except.error` models any exception raised by the call. -/
def SsmStore : Type := String → Except String String

/-- Database credentials, the parsed JSON secret of
`DatabaseManager.get_db_credentials` (app.py lines 103-119). -/
structure DbCredentials where
  host : String
  username : String
  password : String
  database : String
deriving DecidableEq, Repr

/-- Secrets Manager as seen by `secrets_client.get_secret_value` followed by
`json.loads`: `Except.error` models any exception raised. -/
def SecretsStore : Type := String → Except String DbCredentials

/-- A raised `HTTPException(status_code=..., detail=...)`. -/
structure HTTPError where
  status : Nat
  detail : String
deriving DecidableEq, Repr

/-- Default of `os.getenv("PARAM_FAILURE_MODE", "/golden/failure_mode")`
(app.py line 68). -/
def PARAM_FAILURE_MODE : String := "/golden/failure_mode"

/-- Default of `os.getenv("AWS_REGION", "us-east-1")` (app.py line 69). -/
def AWS_REGION : String := "us-east-1"

/-- `FailureMode.get_current_mode` (app.py lines 75-86): returns `"none"`
when `PARAM_FAILURE_MODE` is falsy (the empty string) and `"none"` when the
`get_parameter` call raises; otherwise the stored parameter value. -/
def getCurrentMode (paramFailureMode : String) (ssm : SsmStore) : String :=
  if paramFailureMode = "" then "none"
  else
    match ssm paramFailureMode with
    | Except.ok v => v
    | Except.error _ => "none"

/-- `FailureMode.should_return_500` (app.py lines 88-91). -/
def shouldReturn500 (paramFailureMode : String) (ssm : SsmStore) : Bool :=
  getCurrentMode paramFailureMode ssm == "return_500"

/-- `FailureMode.should_leak_connections` (app.py lines 93-96). -/
def shouldLeakConnections (paramFailureMode : String) (ssm : SsmStore) : Bool :=
  getCurrentMode paramFailureMode ssm == "connection_leak"

/-- The module-level global `db_connection` record once populated
(app.py lines 130-134). -/
structure Connection where
  host : String
  connected : Bool
  connection_time : String
deriving DecidableEq, Repr

/-- `DatabaseManager.get_db_credentials` (app.py lines 102-119): hardcoded
test credentials when `DB_SECRET_ARN` is falsy, the parsed secret on
success, and `HTTPException(500, "Database configuration error")` when the
Secrets Manager call (or JSON parse) raises. -/
def getDbCredentials (dbSecretArn : String) (secrets : SecretsStore) :
    Except HTTPError DbCredentials :=
  if dbSecretArn = "" then
    Except.ok ⟨"localhost", "test", "test", "test"⟩
  else
    match secrets dbSecretArn with
    | Except.ok secret => Except.ok secret
    | Except.error _ => Except.error ⟨500, "Database configuration error"⟩

/-- `DatabaseManager.get_connection` (app.py lines 121-136): returns the
cached global when present, otherwise builds the simulated in-memory
connection record from the credentials and caches it. The returned pair is
(connection handed to the caller, new value of the global `db_connection`). -/
def getConnection (dbSecretArn : String) (secrets : SecretsStore)
    (now : String) (dbConn : Option Connection) :
    Except HTTPError (Connection × Option Connection) :=
  match dbConn with
  | some c => Except.ok (c, some c)
  | none =>
    match getDbCredentials dbSecretArn secrets with
    | Except.error e => Except.error e
    | Except.ok creds =>
      let c : Connection := ⟨creds.host, true, now⟩
      Except.ok (c, some c)

/-- The dict built by `DatabaseManager.execute_query` (app.py lines 144-149). -/
structure QueryResult where
  query : String
  result : String
  timestamp : String
  connection_info : Connection
deriving DecidableEq, Repr

/-- `DatabaseManager.execute_query` (app.py lines 138-156): obtains the
(cached) connection, builds the result dict locally, and then — mirroring the
source — branches on `should_leak_connections` with a `pass` body, so the
connection is not released on either branch. -/
def executeQuery (query : String) (dbSecretArn : String)
    (secrets : SecretsStore) (paramFailureMode : String) (ssm : SsmStore)
    (now : String) (dbConn : Option Connection) :
    Except HTTPError (QueryResult × Option Connection) :=
  match getConnection dbSecretArn secrets now dbConn with
  | Except.error e => Except.error e
  | Except.ok (conn, dbConnNew) =>
    let result : QueryResult := ⟨query, "Query executed successfully", now, conn⟩
    if !(shouldLeakConnections paramFailureMode ssm) then
      -- source: `pass` — in a real app connections would be closed here
      Except.ok (result, dbConnNew)
    else
      Except.ok (result, dbConnNew)

/-- Response body of the `/` handler (app.py lines 210-216). -/
structure RootResponse where
  message : String
  version : String
  timestamp : String
  region : String
  failure_mode : String
deriving DecidableEq, Repr

/-- `root`, the `GET /` handler (app.py lines 201-216). -/
def root (paramFailureMode : String) (ssm : SsmStore) (region : String)
    (now : String) : Except HTTPError RootResponse :=
  if shouldReturn500 paramFailureMode ssm then
    Except.error ⟨500, "Simulated server error"⟩
  else
    Except.ok ⟨"Golden Path Sample Application", "1.0.0", now, region,
      getCurrentMode paramFailureMode ssm⟩

/-- Response body of the `/healthz` handler (app.py lines 230-238); the
`checks` sub-dict is flattened into the three `check` fields. -/
structure HealthResponse where
  status : String
  timestamp : String
  check_database : String
  check_memory : String
  check_disk : String
deriving DecidableEq, Repr

/-- `health_check`, the `GET /healthz` handler (app.py lines 219-238). -/
def healthCheck (paramFailureMode : String) (ssm : SsmStore) (now : String) :
    Except HTTPError HealthResponse :=
  if shouldReturn500 paramFailureMode ssm then
    Except.error ⟨500, "Health check failed"⟩
  else
    Except.ok ⟨"healthy", now, "ok", "ok", "ok"⟩

/-- Response body of the `/work` handler (app.py lines 267-272). -/
structure WorkResponse where
  message : String
  requested_ms : Int
  actual_ms : Int
  timestamp : String
deriving DecidableEq, Repr

/-- `simulate_work`, the `GET /work` handler (app.py lines 241-272), with
the query parameter `ms : int` an arbitrary integer. The handler clamps
`ms = min(ms, 5000)` and then busy-waits until `start_time + ms / 1000`,
which consumes `max ms 0` milliseconds of CPU (a non-positive deadline makes
the `while` loop exit at once). The first component of the result is that
idealized busy-wait duration in milliseconds; `actual_ms`, the measured
elapsed time, is idealized to the same value. -/
def simulateWork (ms : Int) (paramFailureMode : String) (ssm : SsmStore)
    (now : String) : Except HTTPError (Int × WorkResponse) :=
  if shouldReturn500 paramFailureMode ssm then
    Except.error ⟨500, "Simulated server error"⟩
  else
    let msClamped := min ms 5000
    let burn := max msClamped 0
    Except.ok (burn, ⟨"Work completed", msClamped, burn, now⟩)

/-- Response body of the `/db` handler (app.py lines 290-295). -/
structure DbResponse where
  message : String
  result : QueryResult
  timestamp : String
  failure_mode : String
deriving DecidableEq, Repr

/-- `database_query`, the `GET /db` handler (app.py lines 275-299): a
forced 500 when the failure mode demands it, otherwise `execute_query`
wrapped in a `try` whose `except` re-raises any exception as
`HTTPException(500, "Database error: ...")` (the embedded detail string
keeps the inner detail in place of Python `str(e)`). -/
def databaseQuery (dbSecretArn : String) (secrets : SecretsStore)
    (paramFailureMode : String) (ssm : SsmStore) (now : String)
    (dbConn : Option Connection) :
    Except HTTPError (DbResponse × Option Connection) :=
  if shouldReturn500 paramFailureMode ssm then
    Except.error ⟨500, "Simulated server error"⟩
  else
    match executeQuery "SELECT 1 as test_column" dbSecretArn secrets
        paramFailureMode ssm now dbConn with
    | Except.error e => Except.error ⟨500, "Database error: " ++ e.detail⟩
    | Except.ok (result, dbConnNew) =>
      Except.ok (⟨"Database query successful", result, now,
        getCurrentMode paramFailureMode ssm⟩, dbConnNew)

/-- Response body of the `/metrics` handler (app.py lines 311-322); the
`environment` sub-dict is flattened. -/
structure MetricsResponse where
  timestamp : String
  failure_mode : String
  database_connection : Connection
  env_region : String
  env_db_secret_arn : String
  env_failure_mode_param : String
deriving DecidableEq, Repr

/-- `metrics`, the `GET /metrics` handler (app.py lines 302-322). There is
no `try` around `get_connection` here, so its `HTTPException` propagates. -/
def metrics (dbSecretArn : String) (secrets : SecretsStore)
    (paramFailureMode : String) (ssm : SsmStore) (region : String)
    (now : String) (dbConn : Option Connection) :
    Except HTTPError (MetricsResponse × Option Connection) :=
  if shouldReturn500 paramFailureMode ssm then
    Except.error ⟨500, "Simulated server error"⟩
  else
    match getConnection dbSecretArn secrets now dbConn with
    | Except.error e => Except.error e
    | Except.ok (conn, dbConnNew) =>
      Except.ok (⟨now, getCurrentMode paramFailureMode ssm, conn, region,
        (if dbSecretArn = "" then "not_configured"
         else dbSecretArn.take 20 ++ "..."),
        paramFailureMode⟩, dbConnNew)

/-- Response body of `GET /admin/failure-mode` (app.py lines 328-331). -/
structure FailureModeResponse where
  failure_mode : String
  timestamp : String
deriving DecidableEq, Repr

/-- `get_failure_mode`, the `GET /admin/failure-mode` handler (app.py
lines 325-331): no failure-mode check, it always returns the current mode. -/
def getFailureMode (paramFailureMode : String) (ssm : SsmStore)
    (now : String) : Except HTTPError FailureModeResponse :=
  Except.ok ⟨getCurrentMode paramFailureMode ssm, now⟩

/-- Response body of `POST /admin/failure-mode/{mode}` (app.py lines
350-353). -/
structure SetModeResponse where
  message : String
  timestamp : String
deriving DecidableEq, Repr

/-- SSM `put_parameter` with `Overwrite=True`: the store afterwards maps
`name` to `value` and is unchanged elsewhere. -/
def putParameter (ssm : SsmStore) (name value : String) : SsmStore :=
  fun n => if n = name then Except.ok value else ssm n

/-- `set_failure_mode`, the `POST /admin/failure-mode/{mode}` handler
(app.py lines 334-359): inside a `try`, an unconfigured parameter name
raises `HTTPException(500, ...)` and `put_parameter` may raise; the
`except` re-raises either as `HTTPException(500, "Failed to set failure
mode: ...")`. `putRaises` models whether the AWS call raises. The second
component is the parameter store after the call. -/
def setFailureMode (mode : String) (paramFailureMode : String)
    (ssm : SsmStore) (putRaises : Bool) (now : String) :
    Except HTTPError SetModeResponse × SsmStore :=
  if paramFailureMode = "" then
    (Except.error ⟨500,
      "Failed to set failure mode: Failure mode parameter not configured"⟩,
     ssm)
  else if putRaises then
    (Except.error ⟨500, "Failed to set failure mode: put_parameter raised"⟩,
     ssm)
  else
    (Except.ok ⟨"Failure mode set to: " ++ mode, now⟩,
     putParameter ssm paramFailureMode mode)

/-- A parameter store holding the value `m` for every name: the simplest
environment in which the externally-stored failure-mode string is `m`. -/
def constStore (m : String) : SsmStore := fun _ => Except.ok m

/-- The mode string `m`, read through the default parameter name and a
working store, forces 500s exactly when `m` is the `return_500` literal. -/
def modeReturns500 (m : String) : Bool :=
  shouldReturn500 PARAM_FAILURE_MODE (constStore m)

/-- The mode string `m` activates the connection-leak branch exactly when
`m` is the `connection_leak` literal. -/
def modeLeaks (m : String) : Bool :=
  shouldLeakConnections PARAM_FAILURE_MODE (constStore m)

/-- The mode string `m` activates some failure behaviour of the
application (forced 500s or the connection-leak branch). -/
def modeActivates (m : String) : Bool :=
  modeReturns500 m || modeLeaks m

/-- The busy-wait milliseconds the `/work` handler performs under mode
string `m` for query parameter `ms`: `none` when the handler raises. -/
def workBurnMs (m : String) (ms : Int) : Option Int :=
  match simulateWork ms PARAM_FAILURE_MODE (constStore m) "t" with
  | Except.error _ => none
  | Except.ok (burn, _) => some burn

/-- Under mode string `m`, a `GET /work?ms=...` request actually performs
simulated CPU burn (a positive busy-wait). -/
def performsCpuBurn (m : String) (ms : Int) : Bool :=
  match workBurnMs m ms with
  | none => false
  | some b => b > 0

end GoldenPath

namespace GoldenPathInfra

/-- Python truthiness-based `or` on an optional boolean context value:
`x or default` keeps `x` when it is truthy (`True`) and falls back to the
default when the context lookup returned `None` or a falsy value. -/
def pyOrBool (v : Option Bool) (default : Bool) : Bool :=
  match v with
  | some b => if b then b else default
  | none => default

/-- Python truthiness-based `or` on an optional string context value. -/
def pyOrStr (v : Option String) (default : String) : String :=
  match v with
  | some s => if s = "" then default else s
  | none => default

/-- The CDK context values read in `src/infra/app.py` lines 14-25 (numeric
sizing values are irrelevant to which stacks exist and are carried as
naturals; `minAcu`/`maxAcu` are omitted for the same reason). -/
structure CdkContext where
  envName : Option String
  dbEngine : Option String
  rotateSecrets : Option Bool
  useOneNat : Option Bool
  alarmEmail : Option String
  webhookUrl : Option String
  desiredCount : Option Nat
  cpu : Option Nat
  memoryMiB : Option Nat
  enableFIS : Option Bool
deriving Repr

/-- The six stacks of `src/infra/app.py`. -/
inductive StackId where
  | network
  | data
  | compute
  | observability
  | deployment
  | fis
deriving DecidableEq, Repr

/-- The synthesized CDK application: the stacks instantiated and the
`add_dependency` edges, each edge written (dependent, dependsOn). -/
structure CdkApp where
  stackList : List StackId
  dependencies : List (StackId × StackId)
deriving DecidableEq, Repr

/-- `src/infra/app.py` lines 11-117: instantiates the network, data,
compute, observability and deployment stacks, instantiates the FIS stack
when `enable_fis` is truthy (adding its dependency on observability at
line 109), and records the four `add_dependency` calls of lines 112-115. -/
def synthApp (ctx : CdkContext) : CdkApp :=
  let enableFIS := pyOrBool ctx.enableFIS true
  let baseStacks := [StackId.network, StackId.data, StackId.compute,
    StackId.observability, StackId.deployment]
  let allStacks := if enableFIS then baseStacks ++ [StackId.fis] else baseStacks
  let fisDeps := if enableFIS then [(StackId.fis, StackId.observability)] else []
  let deps := fisDeps ++
    [(StackId.data, StackId.network),
     (StackId.compute, StackId.data),
     (StackId.observability, StackId.compute),
     (StackId.deployment, StackId.compute)]
  ⟨allStacks, deps⟩

/-- The declarative content of one `fis.CfnExperimentTemplate` in
`src/infra/stacks/fis_stack.py`: its description, the FIS action id, the
target resource type and selection mode, and the `ExperimentType` tag. -/
structure ExperimentTemplate where
  description : String
  actionId : String
  resourceType : String
  selectionMode : String
  experimentType : String
deriving DecidableEq, Repr

/-- `FISStack.__init__` populates `self.experiments`
(fis_stack.py lines 41-44, 101-263): the ECS task-termination and CPU-stress
templates, the network-latency template, and — only when the database object
has a `cluster_identifier` attribute (an Aurora cluster) — the Aurora
failover template. Each entry is (dict key, declared template). -/
def fisExperiments (hasClusterIdentifier : Bool) :
    List (String × ExperimentTemplate) :=
  [("ecs_task_termination",
    ⟨"Terminate random ECS tasks to test auto-recovery",
     "aws:ecs:stop-task", "aws:ecs:task", "PERCENT(50)", "ECS"⟩),
   ("ecs_cpu_stress",
    ⟨"Inject CPU stress into ECS tasks",
     "aws:ecs:task-cpu-stress", "aws:ecs:task", "COUNT(1)", "ECS"⟩),
   ("network_latency",
    ⟨"Inject network latency to test resilience",
     "aws:network:latency", "aws:ec2:subnet", "COUNT(1)", "Network"⟩)] ++
  (if hasClusterIdentifier then
    [("aurora_failover",
      ⟨"Force Aurora cluster failover to test application resilience",
       "aws:rds:failover-db-cluster", "aws:rds:cluster", "ALL", "Database"⟩)]
   else [])

end GoldenPathInfra

namespace GoldenPath

/-- Reading through the default parameter name and a working store yields
the stored string itself. -/
lemma getCurrentMode_constStore (m : String) :
    getCurrentMode PARAM_FAILURE_MODE (constStore m) = m := rfl

/-- Closed form of the busy-wait milliseconds of `/work` under mode `m`. -/
lemma workBurnMs_eq (m : String) (ms : Int) :
    workBurnMs m ms =
      if m == "return_500" then none else some (max (min ms 5000) 0) := by
  unfold workBurnMs simulateWork shouldReturn500
  rw [getCurrentMode_constStore]
  cases h : (m == "return_500") <;> simp [h]

/-- Closed form of `performsCpuBurn`. -/
lemma performsCpuBurn_eq (m : String) (ms : Int) :
    performsCpuBurn m ms =
      (!(m == "return_500") && decide (0 < max (min ms 5000) 0)) := by
  unfold performsCpuBurn
  rw [workBurnMs_eq]
  cases h : (m == "return_500") <;> simp [h]

/-- The mode strings that activate a failure behaviour are exactly the two
literals of `should_return_500` and `should_leak_connections`. -/
lemma modeActivates_true_iff (m : String) :
    modeActivates m = true ↔ m = "return_500" ∨ m = "connection_leak" := by
  unfold modeActivates modeReturns500 modeLeaks shouldReturn500
    shouldLeakConnections
  rw [getCurrentMode_constStore]
  simp

/-- Claim C1, counterexample to the CPU-burn conjunct: there is no flag
value that activates simulated CPU burn — any burn the `/work` handler
performs under some mode is performed just the same under the inactive
mode `"none"`, because the burn is driven by the `ms` query parameter and
not by the flag (app.py lines 241-272). -/
theorem C1_counterexample :
    ¬ ∃ (m : String) (ms : Int),
      performsCpuBurn m ms = true ∧ performsCpuBurn "none" ms = false := by
  rintro ⟨m, ms, hm, hnone⟩
  rw [performsCpuBurn_eq] at hm hnone
  simp at hm hnone
  exact absurd hm.2 (not_lt.mpr hnone)

/-- Claim C1 (amended): the failure-mode flag alters request outcomes in
two ways, not three. Mode `"return_500"` makes every request to `/`,
`/healthz`, `/work`, `/db` and `/metrics` raise an HTTP 500; mode
`"connection_leak"` selects the no-release branch of
`DatabaseManager.execute_query`, whose cached connection record stays in
place; and the simulated CPU burn of `/work` is identical under every mode
that does not force 500s — no flag value activates CPU burn. -/
theorem C1_amended (ms : Int) (dbArn region now q : String)
    (secrets : SecretsStore) (conn : Option Connection) (c0 : Connection)
    (m : String) (hm : m ≠ "return_500") :
    root PARAM_FAILURE_MODE (constStore "return_500") region now =
      Except.error ⟨500, "Simulated server error"⟩ ∧
    healthCheck PARAM_FAILURE_MODE (constStore "return_500") now =
      Except.error ⟨500, "Health check failed"⟩ ∧
    simulateWork ms PARAM_FAILURE_MODE (constStore "return_500") now =
      Except.error ⟨500, "Simulated server error"⟩ ∧
    databaseQuery dbArn secrets PARAM_FAILURE_MODE (constStore "return_500")
        now conn =
      Except.error ⟨500, "Simulated server error"⟩ ∧
    metrics dbArn secrets PARAM_FAILURE_MODE (constStore "return_500")
        region now conn =
      Except.error ⟨500, "Simulated server error"⟩ ∧
    workBurnMs m ms = workBurnMs "none" ms ∧
    executeQuery q dbArn secrets PARAM_FAILURE_MODE
        (constStore "connection_leak") now (some c0) =
      Except.ok (⟨q, "Query executed successfully", now, c0⟩, some c0) := by
  refine ⟨rfl, rfl, rfl, rfl, rfl, ?_, rfl⟩
  rw [workBurnMs_eq, workBurnMs_eq]
  simp [hm]

/-- Witness for C1_amended at mode `"connection_leak"`, `ms = 7`. -/
theorem C1_witness :
    root PARAM_FAILURE_MODE (constStore "return_500") "us-east-1" "t" =
      Except.error ⟨500, "Simulated server error"⟩ ∧
    healthCheck PARAM_FAILURE_MODE (constStore "return_500") "t" =
      Except.error ⟨500, "Health check failed"⟩ ∧
    simulateWork 7 PARAM_FAILURE_MODE (constStore "return_500") "t" =
      Except.error ⟨500, "Simulated server error"⟩ ∧
    databaseQuery "" (fun _ => Except.error "e") PARAM_FAILURE_MODE
        (constStore "return_500") "t" none =
      Except.error ⟨500, "Simulated server error"⟩ ∧
    metrics "" (fun _ => Except.error "e") PARAM_FAILURE_MODE
        (constStore "return_500") "us-east-1" "t" none =
      Except.error ⟨500, "Simulated server error"⟩ ∧
    workBurnMs "connection_leak" 7 = workBurnMs "none" 7 ∧
    executeQuery "SELECT 1 as test_column" "" (fun _ => Except.error "e")
        PARAM_FAILURE_MODE (constStore "connection_leak") "t"
        (some ⟨"h", true, "t0"⟩) =
      Except.ok (⟨"SELECT 1 as test_column", "Query executed successfully",
        "t", ⟨"h", true, "t0"⟩⟩, some ⟨"h", true, "t0"⟩) :=
  C1_amended 7 "" "us-east-1" "t" "SELECT 1 as test_column"
    (fun _ => Except.error "e") none ⟨"h", true, "t0"⟩ "connection_leak"
    (by decide)

/-- Claim C2, counterexample: the failure behaviours are not delimited by
four distinct literal values. There are no four pairwise-distinct strings
whose membership decides activation: only the two literals `"return_500"`
and `"connection_leak"` activate anything (app.py lines 88-96), so three
distinct activating strings already cannot exist. -/
theorem C2_counterexample :
    ¬ ∃ (l1 l2 l3 l4 : String),
      l1 ≠ l2 ∧ l1 ≠ l3 ∧ l1 ≠ l4 ∧ l2 ≠ l3 ∧ l2 ≠ l4 ∧ l3 ≠ l4 ∧
      (∀ m : String,
        modeActivates m = true ↔ (m = l1 ∨ m = l2 ∨ m = l3 ∨ m = l4)) := by
  rintro ⟨l1, l2, l3, l4, h12, h13, _, h23, _, _, hall⟩
  have a1 : modeActivates l1 = true := (hall l1).mpr (Or.inl rfl)
  have a2 : modeActivates l2 = true := (hall l2).mpr (Or.inr (Or.inl rfl))
  have a3 : modeActivates l3 = true :=
    (hall l3).mpr (Or.inr (Or.inr (Or.inl rfl)))
  have e1 := (modeActivates_true_iff l1).mp a1
  have e2 := (modeActivates_true_iff l2).mp a2
  have e3 := (modeActivates_true_iff l3).mp a3
  rcases e1 with rfl | rfl <;> rcases e2 with rfl | rfl <;>
    rcases e3 with rfl | rfl <;>
    first
      | exact h12 rfl
      | exact h13 rfl
      | exact h23 rfl

/-- Claim C2 (amended): the failure-mode toggle is decided by equality
tests against exactly TWO distinct literal values, `"return_500"` and
`"connection_leak"`; a string equal to `"return_500"` forces 500s, a
string equal to `"connection_leak"` activates the connection-leak branch,
and any string equal to neither activates no failure behaviour. -/
theorem C2_amended (m : String) :
    (modeActivates m = true ↔ (m = "return_500" ∨ m = "connection_leak")) ∧
    (modeReturns500 m = true ↔ m = "return_500") ∧
    (modeLeaks m = true ↔ m = "connection_leak") ∧
    ("return_500" : String) ≠ "connection_leak" := by
  refine ⟨modeActivates_true_iff m, ?_, ?_, by decide⟩
  · unfold modeReturns500 shouldReturn500
    rw [getCurrentMode_constStore]
    simp
  · unfold modeLeaks shouldLeakConnections
    rw [getCurrentMode_constStore]
    simp

/-- Claim C3: the database manager is an unconnected stub. For every query
string, `execute_query` returns a result built locally — the query echoed
back, the literal success message, the timestamp, and the cached
connection record — and leaves the cached record in place;
`get_connection` only returns the cached in-memory record, or constructs
one from the credentials when the cache is empty. The embedding is a pure
function of its explicit inputs: no database channel exists. -/
theorem C3_database_stub (q dbArn p now : String) (secrets : SecretsStore)
    (ssm : SsmStore) (c0 : Connection) (creds : DbCredentials)
    (hc : getDbCredentials dbArn secrets = Except.ok creds) :
    getConnection dbArn secrets now (some c0) = Except.ok (c0, some c0) ∧
    getConnection dbArn secrets now none =
      Except.ok (⟨creds.host, true, now⟩, some ⟨creds.host, true, now⟩) ∧
    executeQuery q dbArn secrets p ssm now (some c0) =
      Except.ok (⟨q, "Query executed successfully", now, c0⟩, some c0) ∧
    executeQuery q dbArn secrets p ssm now none =
      Except.ok (⟨q, "Query executed successfully", now,
        ⟨creds.host, true, now⟩⟩, some ⟨creds.host, true, now⟩) := by
  have hg : getConnection dbArn secrets now none =
      Except.ok (⟨creds.host, true, now⟩, some ⟨creds.host, true, now⟩) := by
    unfold getConnection
    rw [hc]
  refine ⟨rfl, hg, ?_, ?_⟩
  · unfold executeQuery
    cases h : shouldLeakConnections p ssm <;> simp [h, getConnection]
  · unfold executeQuery
    rw [hg]
    cases h : shouldLeakConnections p ssm <;> simp [h]

/-- Witness for C3_database_stub: with `DB_SECRET_ARN` unset the hardcoded
test credentials are returned, so the hypothesis holds definitionally. -/
theorem C3_witness :
    getConnection "" (fun _ => Except.error "e") "t"
        (some ⟨"h", true, "t0"⟩) =
      Except.ok (⟨"h", true, "t0"⟩, some ⟨"h", true, "t0"⟩) ∧
    getConnection "" (fun _ => Except.error "e") "t" none =
      Except.ok (⟨"localhost", true, "t"⟩, some ⟨"localhost", true, "t"⟩) ∧
    executeQuery "SELECT 1 as test_column" "" (fun _ => Except.error "e")
        "/golden/failure_mode" (constStore "none") "t"
        (some ⟨"h", true, "t0"⟩) =
      Except.ok (⟨"SELECT 1 as test_column", "Query executed successfully",
        "t", ⟨"h", true, "t0"⟩⟩, some ⟨"h", true, "t0"⟩) ∧
    executeQuery "SELECT 1 as test_column" "" (fun _ => Except.error "e")
        "/golden/failure_mode" (constStore "none") "t" none =
      Except.ok (⟨"SELECT 1 as test_column", "Query executed successfully",
        "t", ⟨"localhost", true, "t"⟩⟩, some ⟨"localhost", true, "t"⟩) :=
  C3_database_stub "SELECT 1 as test_column" "" "/golden/failure_mode" "t"
    (fun _ => Except.error "e") (constStore "none") ⟨"h", true, "t0"⟩
    ⟨"localhost", "test", "test", "test"⟩ rfl

/-- Claim C4: `GET /healthz` returns the healthy status body and fails
with a 500 when the failure mode forces 500s; `GET /work` performs the
requested simulated CPU work (for a request within the 5000 ms cap the
busy-wait and the reported `requested_ms` equal the requested `ms`); and
the admin failure-mode endpoints read the flag
(`GET /admin/failure-mode` returns the stored mode) and write it
(`POST /admin/failure-mode/{mode}` stores `mode`, visible to a subsequent
read). -/
theorem C4_endpoints (m mode now : String) (ms : Int)
    (h0 : 0 ≤ ms) (h5 : ms ≤ 5000) :
    healthCheck PARAM_FAILURE_MODE (constStore "none") now =
      Except.ok ⟨"healthy", now, "ok", "ok", "ok"⟩ ∧
    healthCheck PARAM_FAILURE_MODE (constStore "return_500") now =
      Except.error ⟨500, "Health check failed"⟩ ∧
    simulateWork ms PARAM_FAILURE_MODE (constStore "none") now =
      Except.ok (ms, ⟨"Work completed", ms, ms, now⟩) ∧
    getFailureMode PARAM_FAILURE_MODE (constStore m) now =
      Except.ok ⟨m, now⟩ ∧
    (setFailureMode mode PARAM_FAILURE_MODE (constStore m) false now).1 =
      Except.ok ⟨"Failure mode set to: " ++ mode, now⟩ ∧
    getCurrentMode PARAM_FAILURE_MODE
      (setFailureMode mode PARAM_FAILURE_MODE (constStore m) false now).2 =
      mode := by
  have hnone : shouldReturn500 PARAM_FAILURE_MODE (constStore "none") =
      false := rfl
  refine ⟨rfl, rfl, ?_, rfl, rfl, ?_⟩
  · simp [simulateWork, hnone, min_eq_left h5, max_eq_left h0]
  · rfl

/-- Witness for C4_endpoints at `ms = 100`, mode written `"return_500"`. -/
theorem C4_witness :
    healthCheck PARAM_FAILURE_MODE (constStore "none") "t" =
      Except.ok ⟨"healthy", "t", "ok", "ok", "ok"⟩ ∧
    healthCheck PARAM_FAILURE_MODE (constStore "return_500") "t" =
      Except.error ⟨500, "Health check failed"⟩ ∧
    simulateWork 100 PARAM_FAILURE_MODE (constStore "none") "t" =
      Except.ok (100, ⟨"Work completed", 100, 100, "t"⟩) ∧
    getFailureMode PARAM_FAILURE_MODE (constStore "none") "t" =
      Except.ok ⟨"none", "t"⟩ ∧
    (setFailureMode "return_500" PARAM_FAILURE_MODE (constStore "none")
        false "t").1 =
      Except.ok ⟨"Failure mode set to: " ++ "return_500", "t"⟩ ∧
    getCurrentMode PARAM_FAILURE_MODE
      (setFailureMode "return_500" PARAM_FAILURE_MODE (constStore "none")
        false "t").2 = "return_500" :=
  C4_endpoints "none" "return_500" "t" 100 (by decide) (by decide)

/-- Claim C7: all failure-injection decisions depend on the single
external parameter. For any two executions whose stored failure-mode
string reads the same (their parameter names and SSM stores may differ
arbitrarily), `should_return_500`, `should_leak_connections` and every
flag-reading request handler produce identical outcomes given identical
request-side inputs — the flag value is the only external input that
influences them. The `/metrics` body additionally echoes the configured
parameter name itself (static configuration, not a failure-injection
decision), so for `/metrics` the statement is that its flag-dependent
branch — raising the simulated 500 — agrees. -/
theorem C7_single_parameter (p1 p2 region dbArn now : String)
    (s1 s2 : SsmStore) (secrets : SecretsStore) (conn : Option Connection)
    (ms : Int) (h : getCurrentMode p1 s1 = getCurrentMode p2 s2) :
    shouldReturn500 p1 s1 = shouldReturn500 p2 s2 ∧
    shouldLeakConnections p1 s1 = shouldLeakConnections p2 s2 ∧
    root p1 s1 region now = root p2 s2 region now ∧
    healthCheck p1 s1 now = healthCheck p2 s2 now ∧
    simulateWork ms p1 s1 now = simulateWork ms p2 s2 now ∧
    databaseQuery dbArn secrets p1 s1 now conn =
      databaseQuery dbArn secrets p2 s2 now conn ∧
    (metrics dbArn secrets p1 s1 region now conn =
        Except.error ⟨500, "Simulated server error"⟩ ↔
      metrics dbArn secrets p2 s2 region now conn =
        Except.error ⟨500, "Simulated server error"⟩) ∧
    getFailureMode p1 s1 now = getFailureMode p2 s2 now := by
  refine ⟨?_, ?_, ?_, ?_, ?_, ?_, ?_, ?_⟩ <;>
    simp only [shouldReturn500, shouldLeakConnections, root, healthCheck,
      simulateWork, databaseQuery, executeQuery, metrics, getFailureMode, h]
  by_cases hc : (getCurrentMode p2 s2 == "return_500") = true
  · simp [hc]
  · simp only [if_neg hc]
    cases getConnection dbArn secrets now conn with
    | error e => exact Iff.rfl
    | ok pr => simp

/-- Witness for C7_single_parameter: two different parameter names and two
different stores, both of which read back `"connection_leak"`. -/
theorem C7_witness :
    shouldReturn500 "/golden/failure_mode" (constStore "connection_leak") =
      shouldReturn500 "/p2" (fun _ => Except.ok "connection_leak") ∧
    shouldLeakConnections "/golden/failure_mode"
        (constStore "connection_leak") =
      shouldLeakConnections "/p2" (fun _ => Except.ok "connection_leak") ∧
    root "/golden/failure_mode" (constStore "connection_leak")
        "us-east-1" "t" =
      root "/p2" (fun _ => Except.ok "connection_leak") "us-east-1" "t" ∧
    healthCheck "/golden/failure_mode" (constStore "connection_leak") "t" =
      healthCheck "/p2" (fun _ => Except.ok "connection_leak") "t" ∧
    simulateWork 3 "/golden/failure_mode" (constStore "connection_leak")
        "t" =
      simulateWork 3 "/p2" (fun _ => Except.ok "connection_leak") "t" ∧
    databaseQuery "" (fun _ => Except.error "e") "/golden/failure_mode"
        (constStore "connection_leak") "t" none =
      databaseQuery "" (fun _ => Except.error "e") "/p2"
        (fun _ => Except.ok "connection_leak") "t" none ∧
    (metrics "" (fun _ => Except.error "e") "/golden/failure_mode"
        (constStore "connection_leak") "us-east-1" "t" none =
        Except.error ⟨500, "Simulated server error"⟩ ↔
      metrics "" (fun _ => Except.error "e") "/p2"
        (fun _ => Except.ok "connection_leak") "us-east-1" "t" none =
        Except.error ⟨500, "Simulated server error"⟩) ∧
    getFailureMode "/golden/failure_mode" (constStore "connection_leak")
        "t" =
      getFailureMode "/p2" (fun _ => Except.ok "connection_leak") "t" :=
  C7_single_parameter "/golden/failure_mode" "/p2" "us-east-1" "" "t"
    (constStore "connection_leak") (fun _ => Except.ok "connection_leak")
    (fun _ => Except.error "e") none 3 rfl

/-- Claim C8, counterexample: at `ms = -1` (the FastAPI query `ms: int` admits
negative integers) the busy-wait loop exits immediately, so the CPU work
performed is 0 milliseconds while `min(ms, 5000) = -1`: the performed work
does not equal `min(ms, 5000)` for every integer `ms`. -/
theorem C8_counterexample :
    workBurnMs "none" (-1) = some 0 ∧
    min (-1 : Int) 5000 = -1 ∧ (0 : Int) ≠ -1 := by
  refine ⟨rfl, rfl, by decide⟩

/-- Claim C8 (amended): for every integer `ms` and every mode that does
not force 500s, `/work` returns `requested_ms = min(ms, 5000)` and
busy-waits for `max(min(ms, 5000), 0)` milliseconds — never more than
5000 ms, so no request can demand more than 5 seconds of busy-wait. -/
theorem C8_amended (m now : String) (ms : Int) (hm : m ≠ "return_500") :
    simulateWork ms PARAM_FAILURE_MODE (constStore m) now =
      Except.ok (max (min ms 5000) 0,
        ⟨"Work completed", min ms 5000, max (min ms 5000) 0, now⟩) ∧
    max (min ms 5000) 0 ≤ 5000 := by
  constructor
  · unfold simulateWork shouldReturn500
    rw [getCurrentMode_constStore]
    simp [hm]
  · exact max_le (min_le_right ms 5000) (by decide)

/-- Witness for C8_amended at mode `"none"`, `ms = 7000`: the work is
clamped to 5000. -/
theorem C8_witness :
    simulateWork 7000 PARAM_FAILURE_MODE (constStore "none") "t" =
      Except.ok (max (min 7000 5000) 0,
        ⟨"Work completed", min 7000 5000, max (min 7000 5000) 0, "t"⟩) ∧
    max (min (7000 : Int) 5000) 0 ≤ 5000 :=
  C8_amended "none" "t" 7000 (by decide)

/-- Claim C9: reading the failure mode never fails. When the parameter
name is empty or the SSM lookup raises, `get_current_mode` returns
`"none"` (the embedding is a total function, so no exception propagates),
both failure predicates are off, and the application keeps serving
requests — `/` and `/healthz` answer normally with no failure behaviour
active. -/
theorem C9_mode_read_never_fails (p region now e : String) (ssm : SsmStore)
    (h : p = "" ∨ ssm p = Except.error e) :
    getCurrentMode p ssm = "none" ∧
    shouldReturn500 p ssm = false ∧
    shouldLeakConnections p ssm = false ∧
    root p ssm region now =
      Except.ok ⟨"Golden Path Sample Application", "1.0.0", now, region,
        "none"⟩ ∧
    healthCheck p ssm now = Except.ok ⟨"healthy", now, "ok", "ok", "ok"⟩ := by
  have hmode : getCurrentMode p ssm = "none" := by
    unfold getCurrentMode
    rcases h with h | h
    · simp [h]
    · by_cases hp : p = ""
      · simp [hp]
      · simp [hp, h]
  refine ⟨hmode, ?_, ?_, ?_, ?_⟩ <;>
    simp [shouldReturn500, shouldLeakConnections, root, healthCheck, hmode]

/-- Witness for C9_mode_read_never_fails: an empty parameter name together
with a store that raises on every lookup. -/
theorem C9_witness :
    getCurrentMode "" (fun _ => Except.error "boom") = "none" ∧
    shouldReturn500 "" (fun _ => Except.error "boom") = false ∧
    shouldLeakConnections "" (fun _ => Except.error "boom") = false ∧
    root "" (fun _ => Except.error "boom") "us-east-1" "t" =
      Except.ok ⟨"Golden Path Sample Application", "1.0.0", "t",
        "us-east-1", "none"⟩ ∧
    healthCheck "" (fun _ => Except.error "boom") "t" =
      Except.ok ⟨"healthy", "t", "ok", "ok", "ok"⟩ :=
  C9_mode_read_never_fails "" "us-east-1" "t" "boom"
    (fun _ => Except.error "boom") (Or.inl rfl)

/-- Claim C10: the admin failure-mode endpoints bypass failure injection.
For every stored flag value `m` — including `"return_500"` —
`GET /admin/failure-mode` returns the flag, and
`POST /admin/failure-mode/{mode}` succeeds when the parameter write goes
through and otherwise fails only with its own configuration error, never
with the simulated 500; neither handler consults `should_return_500`, so
the flag can always be inspected and reset while failure injection is
active. -/
theorem C10_admin_bypass (m mode now : String) :
    getFailureMode PARAM_FAILURE_MODE (constStore m) now =
      Except.ok ⟨m, now⟩ ∧
    (setFailureMode mode PARAM_FAILURE_MODE (constStore m) false now).1 =
      Except.ok ⟨"Failure mode set to: " ++ mode, now⟩ ∧
    (setFailureMode mode PARAM_FAILURE_MODE (constStore m) true now).1 =
      Except.error ⟨500, "Failed to set failure mode: put_parameter raised"⟩ ∧
    getFailureMode PARAM_FAILURE_MODE (constStore "return_500") now =
      Except.ok ⟨"return_500", now⟩ ∧
    (setFailureMode mode PARAM_FAILURE_MODE (constStore "return_500")
        false now).1 =
      Except.ok ⟨"Failure mode set to: " ++ mode, now⟩ :=
  ⟨rfl, rfl, rfl, rfl, rfl⟩

end GoldenPath

namespace GoldenPathInfra

/-- Claim C5: for every CDK context, synthesizing the app instantiates all
six stacks — network, data, compute, observability, deployment and FIS
(`enable_fis` is Python-truthy `or True`, hence always true) — and records
the dependencies data→network, compute→data, observability→compute,
deployment→compute (plus FIS→observability). -/
theorem C5_cdk_app (ctx : CdkContext) :
    synthApp ctx =
      ⟨[StackId.network, StackId.data, StackId.compute,
        StackId.observability, StackId.deployment, StackId.fis],
       [(StackId.fis, StackId.observability),
        (StackId.data, StackId.network),
        (StackId.compute, StackId.data),
        (StackId.observability, StackId.compute),
        (StackId.deployment, StackId.compute)]⟩ := by
  have h : pyOrBool ctx.enableFIS true = true := by
    cases hv : ctx.enableFIS with
    | none => rfl
    | some b => cases b <;> rfl
  unfold synthApp
  rw [h]
  rfl

/-- Claim C6: the FIS stack declares exactly the ECS task-termination, ECS
CPU-stress and network-latency experiment templates, plus the Aurora
failover template exactly when the database object is an Aurora cluster;
each is a pure declarative record carrying its FIS action id — the
repository contains no executable fault-injection logic, only these
declared templates (and the flag branches of the application embedded
above). -/
theorem C6_fis_templates (hasCluster : Bool) :
    (fisExperiments hasCluster).map Prod.fst =
      (["ecs_task_termination", "ecs_cpu_stress", "network_latency"] ++
        if hasCluster then ["aurora_failover"] else []) ∧
    (fisExperiments hasCluster).map (fun e => e.2.actionId) =
      (["aws:ecs:stop-task", "aws:ecs:task-cpu-stress",
        "aws:network:latency"] ++
        if hasCluster then ["aws:rds:failover-db-cluster"] else []) ∧
    (fisExperiments hasCluster).length = if hasCluster then 4 else 3 := by
  cases hasCluster <;> exact ⟨rfl, rfl, rfl⟩

end GoldenPathInfra
